import Mathlib

/-!
# Verification of the scholarship-inclusion optimizer (`src/app.py`)

Shallow embedding of `optimize_scholarship` and its nested evaluator
`calculate_scenario` over exact rationals.  Python `int()` truncation and
`range` are modelled explicitly (`pyInt`, `pyRange`).  The federal bracket
loop, including its early `break` and the unbounded final bracket
(`float('inf')`), is modelled by `fedTaxLoop`.
-/

namespace LLCOpt

/-- The six run-level inputs of `optimize_scholarship` (all exact rationals;
`nc_tax_rate` is the flat state rate). -/
structure Inputs where
  box_1_tuition : ℚ
  box_5_scholarship : ℚ
  sch1_line_8r_current : ℚ
  form1040_line_11_agi : ℚ
  ncd400_line_14_taxable : ℚ
  nc_tax_rate : ℚ
deriving Repr, DecidableEq

/-- One evaluated tax scenario, the dictionary returned by `calculate_scenario`. -/
structure ScenarioResult where
  inclusion : ℚ
  net_position : ℚ
  fed_tax : ℚ
  nc_tax : ℚ
  credit : ℚ
  agi : ℚ
  expenses_to_claim : ℚ
deriving Repr, DecidableEq

def FED_STD_DEDUCTION : ℚ := 15750

def NC_STD_DEDUCTION : ℚ := 12750

/-- The federal bracket table; `none` stands for Python's `float('inf')`. -/
def FED_BRACKETS : List (Option ℚ × ℚ) :=
  [(some 11925, 0.10), (some 48475, 0.12), (some 103350, 0.22), (none, 0.24)]

/-- The bracket loop of `calculate_scenario`: arguments are `remaining`,
`prev_limit` and the still-unprocessed brackets.  For a finite limit the
consumed amount is `min remaining (limit - prev_limit)`; the loop `break`s as
soon as the updated `remaining` is `≤ 0`.  For the `inf` bracket,
`min(remaining, inf - prev_limit) = remaining`, the updated remaining is `0`
and the loop always breaks, so that case contributes `remaining * rate` and
stops. -/
def fedTaxLoop : ℚ → ℚ → List (Option ℚ × ℚ) → ℚ
  | _, _, [] => 0
  | remaining, prev_limit, (some limit, rate) :: rest =>
      let bracket_amt := min remaining (limit - prev_limit)
      let rem2 := remaining - bracket_amt
      if rem2 ≤ 0 then bracket_amt * rate
      else bracket_amt * rate + fedTaxLoop rem2 limit rest
  | remaining, _, (none, rate) :: _ => remaining * rate

/-- `state_adjustment_factor` from the CALIBRATION block. -/
def state_adjustment_factor (I : Inputs) : ℚ :=
  if I.ncd400_line_14_taxable > 0 then
    I.ncd400_line_14_taxable - (I.form1040_line_11_agi - NC_STD_DEDUCTION)
  else 0

def base_fed_income (I : Inputs) : ℚ :=
  I.form1040_line_11_agi - I.sch1_line_8r_current

/-- The nested evaluator `calculate_scenario`. -/
def calculate_scenario (I : Inputs) (inclusion_amount : ℚ) : ScenarioResult :=
  let inclusion_amount :=
    if inclusion_amount > I.box_5_scholarship then I.box_5_scholarship
    else inclusion_amount
  let new_agi := base_fed_income I + inclusion_amount
  let fed_taxable := max 0 (new_agi - FED_STD_DEDUCTION)
  let fed_tax := fedTaxLoop fed_taxable 0 FED_BRACKETS
  let nc_taxable_calc := new_agi - NC_STD_DEDUCTION + state_adjustment_factor I
  let nc_taxable := max 0 nc_taxable_calc
  let nc_tax := nc_taxable * I.nc_tax_rate
  let tax_free_scholarship := max 0 (I.box_5_scholarship - inclusion_amount)
  let qualified_expenses := max 0 (I.box_1_tuition - tax_free_scholarship)
  let potential_credit := min 2000 (qualified_expenses * 0.20)
  let usable_credit := min potential_credit fed_tax
  let net_position := usable_credit - (fed_tax + nc_tax)
  { inclusion := inclusion_amount
    net_position := net_position
    fed_tax := fed_tax
    nc_tax := nc_tax
    credit := usable_credit
    agi := new_agi
    expenses_to_claim := qualified_expenses }

/-- Python `int()`: truncation toward zero. -/
def pyInt (q : ℚ) : ℤ := if 0 ≤ q then ⌊q⌋ else ⌈q⌉

/-- Python `range a b step` for a positive `step`. -/
def pyRange (a b step : ℤ) : List ℤ :=
  (List.range (if a < b then (b - a - 1).toNat / step.toNat + 1 else 0)).map
    (fun k : ℕ => a + step * (k : ℤ))

/-- The hard floor: `min_inclusion = max(0, box_5 - box_1)`. -/
def min_inclusion (I : Inputs) : ℚ :=
  max 0 (I.box_5_scholarship - I.box_1_tuition)

/-- Stage-1 candidate list: `range(int(min_inclusion), int(box_5), 100)` with
`box_5_scholarship` appended. -/
def coarse_steps (I : Inputs) : List ℚ :=
  (pyRange (pyInt (min_inclusion I)) (pyInt I.box_5_scholarship) 100).map
      (fun k : ℤ => (k : ℚ))
    ++ [I.box_5_scholarship]

def safe_baseline_inclusion (I : Inputs) : ℚ :=
  max I.sch1_line_8r_current (min_inclusion I)

/-- One stage-1 update: replace the running best on strict improvement. -/
def coarseStep (I : Inputs) (best : ScenarioResult) (inc : ℚ) : ScenarioResult :=
  let res := calculate_scenario I inc
  if best.net_position < res.net_position then res else best

/-- The stage-1 (coarse) best, seeded with the scenario at
`safe_baseline_inclusion`. -/
def coarseBest (I : Inputs) : ScenarioResult :=
  (coarse_steps I).foldl (coarseStep I)
    (calculate_scenario I (safe_baseline_inclusion I))

def start_fine (I : Inputs) : ℤ :=
  max (pyInt (min_inclusion I)) (pyInt (coarseBest I).inclusion - 100)

def end_fine (I : Inputs) : ℤ :=
  min (pyInt I.box_5_scholarship) (pyInt (coarseBest I).inclusion + 100)

/-- Stage-2 candidate list: `range(start_fine, end_fine + 1)`. -/
def fineWindow (I : Inputs) : List ℤ :=
  pyRange (start_fine I) (end_fine I + 1) 1

/-- One stage-2 update: replace the running best on non-strict improvement. -/
def fineStep (I : Inputs) (best : ScenarioResult) (inc : ℤ) : ScenarioResult :=
  let res := calculate_scenario I (inc : ℚ)
  if best.net_position ≤ res.net_position then res else best

/-- The stage-2 (fine) best, seeded with the coarse best. -/
def fineBest (I : Inputs) : ScenarioResult :=
  (fineWindow I).foldl (fineStep I) (coarseBest I)

/-- `optimize_scholarship`: returns `(manual_result, best_final)`. -/
def optimize_scholarship (I : Inputs) : ScenarioResult × ScenarioResult :=
  (calculate_scenario I I.sch1_line_8r_current, fineBest I)

/-- Every inclusion amount the two-stage search evaluates: the baseline seed,
the coarse candidates, and the fine-window candidates. -/
def searchCandidates (I : Inputs) : List ℚ :=
  safe_baseline_inclusion I ::
    (coarse_steps I ++ (fineWindow I).map (fun k : ℤ => (k : ℚ)))

/-- Reference definition following the spec's bracket description (§4.1/C1):
band widths are `11925`, `48475 − 11925`, `103350 − 48475`, and the final
band is unbounded; each band consumes `min(remaining, width)` at its rate. -/
def specProgressiveTax (taxable : ℚ) : ℚ :=
  let r0 := taxable
  let b1 := min r0 11925
  let r1 := r0 - b1
  let b2 := min r1 (48475 - 11925)
  let r2 := r1 - b2
  let b3 := min r2 (103350 - 48475)
  let r3 := r2 - b3
  b1 * 0.10 + b2 * 0.12 + b3 * 0.22 + r3 * 0.24

/-- Closed min/max form of the bracket computation, used to prove facts about
`fedTaxLoop` (it agrees with the loop on non-negative taxable income). -/
def fedTaxPiece (t : ℚ) : ℚ :=
  min t 11925 * 0.10
    + min (max (t - 11925) 0) 36550 * 0.12
    + min (max (t - 48475) 0) 54875 * 0.22
    + max (t - 103350) 0 * 0.24

/-- The clamp performed at the top of `calculate_scenario`. -/
def clampInc (I : Inputs) (x : ℚ) : ℚ :=
  if x > I.box_5_scholarship then I.box_5_scholarship else x

lemma clampInc_eq_min (I : Inputs) (x : ℚ) :
    clampInc I x = min x I.box_5_scholarship := by
  unfold clampInc
  split_ifs with h
  · exact (min_eq_right (le_of_lt h)).symm
  · exact (min_eq_left (le_of_not_lt h)).symm

lemma scenario_inclusion (I : Inputs) (x : ℚ) :
    (calculate_scenario I x).inclusion = clampInc I x := rfl

lemma scenario_agi (I : Inputs) (x : ℚ) :
    (calculate_scenario I x).agi = base_fed_income I + clampInc I x := rfl

lemma scenario_fed_tax (I : Inputs) (x : ℚ) :
    (calculate_scenario I x).fed_tax =
      fedTaxLoop (max 0 (base_fed_income I + clampInc I x - FED_STD_DEDUCTION))
        0 FED_BRACKETS := rfl

lemma scenario_nc_tax (I : Inputs) (x : ℚ) :
    (calculate_scenario I x).nc_tax =
      max 0 (base_fed_income I + clampInc I x - NC_STD_DEDUCTION
          + state_adjustment_factor I) * I.nc_tax_rate := rfl

lemma scenario_expenses (I : Inputs) (x : ℚ) :
    (calculate_scenario I x).expenses_to_claim =
      max 0 (I.box_1_tuition - max 0 (I.box_5_scholarship - clampInc I x)) := rfl

lemma scenario_credit (I : Inputs) (x : ℚ) :
    (calculate_scenario I x).credit =
      min (min 2000 ((calculate_scenario I x).expenses_to_claim * 0.20))
        (calculate_scenario I x).fed_tax := rfl

lemma scenario_net (I : Inputs) (x : ℚ) :
    (calculate_scenario I x).net_position =
      (calculate_scenario I x).credit
        - ((calculate_scenario I x).fed_tax + (calculate_scenario I x).nc_tax) := rfl

/-- On non-negative taxable income, the source's bracket loop agrees with the
closed min/max form. -/
lemma fedTaxLoop_eq_piece (t : ℚ) :
    fedTaxLoop t 0 FED_BRACKETS = fedTaxPiece t := by
  simp only [FED_BRACKETS, fedTaxLoop, fedTaxPiece, sub_zero]
  rcases le_or_lt t 11925 with h1 | h1
  · rw [min_eq_left h1, if_pos (by linarith : t - t ≤ (0:ℚ)),
      max_eq_right (by linarith : t - 11925 ≤ (0:ℚ)),
      max_eq_right (by linarith : t - 48475 ≤ (0:ℚ)),
      max_eq_right (by linarith : t - 103350 ≤ (0:ℚ)),
      min_eq_left (by norm_num : (0:ℚ) ≤ 36550),
      min_eq_left (by norm_num : (0:ℚ) ≤ 54875)]
    ring
  · rw [min_eq_right (le_of_lt h1), if_neg (by linarith : ¬ t - 11925 ≤ (0:ℚ)),
      max_eq_left (by linarith : (0:ℚ) ≤ t - 11925)]
    rcases le_or_lt t 48475 with h2 | h2
    · rw [min_eq_left (by linarith : t - 11925 ≤ (48475 - 11925 : ℚ)),
        if_pos (by linarith : t - 11925 - (t - 11925) ≤ (0:ℚ)),
        min_eq_left (by linarith : t - 11925 ≤ (36550 : ℚ)),
        max_eq_right (by linarith : t - 48475 ≤ (0:ℚ)),
        max_eq_right (by linarith : t - 103350 ≤ (0:ℚ)),
        min_eq_left (by norm_num : (0:ℚ) ≤ 54875)]
      ring
    · rw [min_eq_right (by linarith : (48475 - 11925 : ℚ) ≤ t - 11925),
        if_neg (by norm_num; linarith : ¬ t - 11925 - (48475 - 11925) ≤ (0:ℚ)),
        min_eq_right (by linarith : (36550:ℚ) ≤ t - 11925),
        max_eq_left (by linarith : (0:ℚ) ≤ t - 48475)]
      rcases le_or_lt t 103350 with h3 | h3
      · rw [min_eq_left
            (by norm_num; linarith : t - 11925 - (48475 - 11925) ≤ (103350 - 48475 : ℚ)),
          if_pos (by linarith :
            t - 11925 - (48475 - 11925) - (t - 11925 - (48475 - 11925)) ≤ (0:ℚ)),
          min_eq_left (by linarith : t - 48475 ≤ (54875:ℚ)),
          max_eq_right (by linarith : t - 103350 ≤ (0:ℚ))]
        ring
      · rw [min_eq_right
            (by norm_num; linarith : (103350 - 48475 : ℚ) ≤ t - 11925 - (48475 - 11925)),
          if_neg (by norm_num; linarith :
            ¬ t - 11925 - (48475 - 11925) - (103350 - 48475) ≤ (0:ℚ)),
          min_eq_right (by linarith : (54875:ℚ) ≤ t - 48475),
          max_eq_left (by linarith : (0:ℚ) ≤ t - 103350)]
        ring

lemma fedTaxPiece_nonneg {t : ℚ} (ht : 0 ≤ t) : 0 ≤ fedTaxPiece t := by
  unfold fedTaxPiece
  have h1 : (0 : ℚ) ≤ min t 11925 := le_min ht (by norm_num)
  have h2 : (0 : ℚ) ≤ min (max (t - 11925) 0) 36550 :=
    le_min (le_max_right _ _) (by norm_num)
  have h3 : (0 : ℚ) ≤ min (max (t - 48475) 0) 54875 :=
    le_min (le_max_right _ _) (by norm_num)
  have h4 : (0 : ℚ) ≤ max (t - 103350) 0 := le_max_right _ _
  have r1 : (0 : ℚ) ≤ 0.10 := by norm_num
  have r2 : (0 : ℚ) ≤ 0.12 := by norm_num
  have r3 : (0 : ℚ) ≤ 0.22 := by norm_num
  have r4 : (0 : ℚ) ≤ 0.24 := by norm_num
  have := mul_nonneg h1 r1
  have := mul_nonneg h2 r2
  have := mul_nonneg h3 r3
  have := mul_nonneg h4 r4
  linarith

lemma fedTaxPiece_mono {s t : ℚ} (hst : s ≤ t) : fedTaxPiece s ≤ fedTaxPiece t := by
  unfold fedTaxPiece
  have h1 : min s 11925 ≤ min t 11925 := min_le_min hst le_rfl
  have h2 : min (max (s - 11925) 0) 36550 ≤ min (max (t - 11925) 0) 36550 :=
    min_le_min (max_le_max (by linarith) le_rfl) le_rfl
  have h3 : min (max (s - 48475) 0) 54875 ≤ min (max (t - 48475) 0) 54875 :=
    min_le_min (max_le_max (by linarith) le_rfl) le_rfl
  have h4 : max (s - 103350) 0 ≤ max (t - 103350) 0 :=
    max_le_max (by linarith) le_rfl
  have g1 := mul_le_mul_of_nonneg_right h1 (by norm_num : (0:ℚ) ≤ 0.10)
  have g2 := mul_le_mul_of_nonneg_right h2 (by norm_num : (0:ℚ) ≤ 0.12)
  have g3 := mul_le_mul_of_nonneg_right h3 (by norm_num : (0:ℚ) ≤ 0.22)
  have g4 := mul_le_mul_of_nonneg_right h4 (by norm_num : (0:ℚ) ≤ 0.24)
  linarith

/-- The spec's progressive-bracket reference agrees with the closed min/max
form on non-negative taxable income. -/
lemma specProgressiveTax_eq_piece (t : ℚ) :
    specProgressiveTax t = fedTaxPiece t := by
  have e1 : t - min t 11925 = max (t - 11925) 0 := by
    rcases le_or_lt t 11925 with h | h
    · rw [min_eq_left h, max_eq_right (by linarith : t - 11925 ≤ (0:ℚ))]; ring
    · rw [min_eq_right (le_of_lt h), max_eq_left (by linarith : (0:ℚ) ≤ t - 11925)]
  have e2 : max (t - 11925) 0 - min (max (t - 11925) 0) (48475 - 11925)
      = max (t - 48475) 0 := by
    rcases le_or_lt t 48475 with h | h
    · rw [min_eq_left (max_le (by linarith) (by norm_num)),
        max_eq_right (by linarith : t - 48475 ≤ (0:ℚ))]
      ring
    · rw [max_eq_left (by linarith : (0:ℚ) ≤ t - 11925),
        min_eq_right (by linarith : (48475 - 11925 : ℚ) ≤ t - 11925),
        max_eq_left (by linarith : (0:ℚ) ≤ t - 48475)]
      ring
  have e3 : max (t - 48475) 0 - min (max (t - 48475) 0) (103350 - 48475)
      = max (t - 103350) 0 := by
    rcases le_or_lt t 103350 with h | h
    · rw [min_eq_left (max_le (by linarith) (by norm_num)),
        max_eq_right (by linarith : t - 103350 ≤ (0:ℚ))]
      ring
    · rw [max_eq_left (by linarith : (0:ℚ) ≤ t - 48475),
        min_eq_right (by linarith : (103350 - 48475 : ℚ) ≤ t - 48475),
        max_eq_left (by linarith : (0:ℚ) ≤ t - 103350)]
      ring
  simp only [specProgressiveTax, fedTaxPiece]
  rw [e1, e2, e3]
  norm_num

lemma pyInt_intCast (z : ℤ) : pyInt (z : ℚ) = z := by
  unfold pyInt
  split_ifs with h
  · exact Int.floor_intCast z
  · exact Int.ceil_intCast z

lemma pyInt_cast_le {q : ℚ} (hq : 0 ≤ q) : (pyInt q : ℚ) ≤ q := by
  unfold pyInt
  rw [if_pos hq]
  exact Int.floor_le q

lemma pyInt_nonneg {q : ℚ} (hq : 0 ≤ q) : 0 ≤ pyInt q := by
  unfold pyInt
  rw [if_pos hq]
  exact Int.floor_nonneg.mpr hq

lemma pyRange_length (a b s : ℤ) :
    (pyRange a b s).length =
      if a < b then (b - a - 1).toNat / s.toNat + 1 else 0 := by
  unfold pyRange
  rw [List.length_map, List.length_range]

lemma pyRange_mem {a b s k : ℤ} (h : k ∈ pyRange a b s) :
    ∃ i : ℕ, k = a + s * (i : ℤ) := by
  unfold pyRange at h
  rcases List.mem_map.mp h with ⟨i, _, rfl⟩
  exact ⟨i, rfl⟩

lemma pyRange_one_eq (a b : ℤ) :
    pyRange a b 1 = (List.range (b - a).toNat).map (fun i : ℕ => a + (i : ℤ)) := by
  unfold pyRange
  have hn : (if a < b then (b - a - 1).toNat / (1 : ℤ).toNat + 1 else 0)
      = (b - a).toNat := by
    split_ifs with h
    · simp only [Int.toNat_one, Nat.div_one]
      omega
    · omega
  rw [hn]
  exact List.map_congr_left fun i _ => by ring

lemma pyRange_one_mem (a b k : ℤ) : k ∈ pyRange a b 1 ↔ a ≤ k ∧ k < b := by
  rw [pyRange_one_eq]
  simp only [List.mem_map, List.mem_range]
  constructor
  · rintro ⟨i, hi, rfl⟩
    omega
  · rintro ⟨h1, h2⟩
    exact ⟨(k - a).toNat, by omega, by omega⟩

lemma pyRange_one_split {a b j : ℤ} (h1 : a ≤ j) (h2 : j < b) :
    pyRange a b 1 = pyRange a j 1 ++ j :: pyRange (j + 1) b 1 := by
  rw [pyRange_one_eq, pyRange_one_eq, pyRange_one_eq]
  have hsum : (b - a).toNat = (j - a).toNat + ((b - j - 1).toNat + 1) := by omega
  rw [hsum, List.range_add, List.map_append]
  congr 1
  rw [List.range_succ_eq_map]
  simp only [List.map_cons, List.map_map]
  have hb' : (b - j - 1).toNat = (b - (j + 1)).toNat := by omega
  rw [hb']
  congr 1
  · omega
  · exact List.map_congr_left fun i _ => by
      simp only [Function.comp_apply]
      omega

/-- A fold whose step either keeps the accumulator or moves to `g c`
preserves any property that holds of the seed and of every candidate. -/
lemma foldl_preserve {α : Type} (P : ScenarioResult → Prop)
    (f : ScenarioResult → α → ScenarioResult) (g : α → ScenarioResult)
    (hf : ∀ b c, f b c = b ∨ f b c = g c) (l : List α) :
    ∀ b, P b → (∀ c ∈ l, P (g c)) → P (l.foldl f b) := by
  induction l with
  | nil => intro b hb _; simpa using hb
  | cons c l ih =>
    intro b hb hl
    simp only [List.foldl_cons]
    apply ih
    · rcases hf b c with h | h
      · rw [h]; exact hb
      · rw [h]; exact hl c (by simp)
    · intro d hd; exact hl d (by simp [hd])

/-- A fold whose step never decreases `net_position` ends at least as high as
its seed. -/
lemma foldl_net_mono {α : Type} (f : ScenarioResult → α → ScenarioResult)
    (hf : ∀ b c, b.net_position ≤ (f b c).net_position) (l : List α) :
    ∀ b, b.net_position ≤ (l.foldl f b).net_position := by
  induction l with
  | nil => intro b; simp
  | cons c l ih =>
    intro b
    simp only [List.foldl_cons]
    exact le_trans (hf b c) (ih (f b c))

lemma coarseStep_cases (I : Inputs) (b : ScenarioResult) (inc : ℚ) :
    coarseStep I b inc = b ∨ coarseStep I b inc = calculate_scenario I inc := by
  simp only [coarseStep]
  split_ifs
  · right; rfl
  · left; rfl

lemma coarseStep_net_le (I : Inputs) (b : ScenarioResult) (inc : ℚ) :
    b.net_position ≤ (coarseStep I b inc).net_position := by
  simp only [coarseStep]
  split_ifs with h
  · exact le_of_lt h
  · exact le_rfl

lemma fineStep_cases (I : Inputs) (b : ScenarioResult) (inc : ℤ) :
    fineStep I b inc = b ∨ fineStep I b inc = calculate_scenario I (inc : ℚ) := by
  simp only [fineStep]
  split_ifs
  · right; rfl
  · left; rfl

lemma fineStep_net_le (I : Inputs) (b : ScenarioResult) (inc : ℤ) :
    b.net_position ≤ (fineStep I b inc).net_position := by
  simp only [fineStep]
  split_ifs with h
  · exact h
  · exact le_rfl

/-- If every candidate is strictly below the running best, the `≥`-fold never
replaces it. -/
lemma fineFold_const (I : Inputs) (l : List ℤ) (b : ScenarioResult)
    (h : ∀ k ∈ l, (calculate_scenario I (k : ℚ)).net_position < b.net_position) :
    l.foldl (fineStep I) b = b := by
  induction l with
  | nil => rfl
  | cons c l ih =>
    have hc : fineStep I b c = b := by
      simp only [fineStep]
      rw [if_neg (not_le.mpr (h c (by simp)))]
    simp only [List.foldl_cons, hc]
    exact ih fun k hk => h k (by simp [hk])

lemma fineFold_net_le (I : Inputs) (l : List ℤ) (b : ScenarioResult) (M : ℚ)
    (hb : b.net_position ≤ M)
    (hl : ∀ k ∈ l, (calculate_scenario I (k : ℚ)).net_position ≤ M) :
    (l.foldl (fineStep I) b).net_position ≤ M :=
  foldl_preserve (fun r => r.net_position ≤ M) (fineStep I)
    (fun k => calculate_scenario I (k : ℚ)) (fineStep_cases I) l b hb hl

/-- The `≥`-fold returns the scenario of `j` when `j` ties the overall maximum
and every candidate after it is strictly worse. -/
lemma fineFold_last_argmax (I : Inputs) (l1 l2 : List ℤ) (j : ℤ) (b : ScenarioResult)
    (hb : b.net_position ≤ (calculate_scenario I (j : ℚ)).net_position)
    (h1 : ∀ k ∈ l1, (calculate_scenario I (k : ℚ)).net_position
      ≤ (calculate_scenario I (j : ℚ)).net_position)
    (h2 : ∀ k ∈ l2, (calculate_scenario I (k : ℚ)).net_position
      < (calculate_scenario I (j : ℚ)).net_position) :
    (l1 ++ j :: l2).foldl (fineStep I) b = calculate_scenario I (j : ℚ) := by
  rw [List.foldl_append, List.foldl_cons]
  have hb1 : (l1.foldl (fineStep I) b).net_position
      ≤ (calculate_scenario I (j : ℚ)).net_position :=
    fineFold_net_le I l1 b _ hb h1
  have hstep : fineStep I (l1.foldl (fineStep I) b) j = calculate_scenario I (j : ℚ) := by
    simp only [fineStep]
    rw [if_pos hb1]
  rw [hstep]
  exact fineFold_const I l2 _ h2

lemma min_inclusion_nonneg (I : Inputs) : 0 ≤ min_inclusion I :=
  le_max_left _ _

lemma min_inclusion_le_box5 (I : Inputs) (ht : 0 ≤ I.box_1_tuition)
    (hb : 0 ≤ I.box_5_scholarship) : min_inclusion I ≤ I.box_5_scholarship :=
  max_le hb (by linarith)

lemma scenario_fed_tax_nonneg (I : Inputs) (x : ℚ) :
    0 ≤ (calculate_scenario I x).fed_tax := by
  rw [scenario_fed_tax, fedTaxLoop_eq_piece]
  exact fedTaxPiece_nonneg (le_max_left _ _)

lemma clampInc_mono (I : Inputs) {x y : ℚ} (h : x ≤ y) :
    clampInc I x ≤ clampInc I y := by
  rw [clampInc_eq_min, clampInc_eq_min]
  exact min_le_min h le_rfl

lemma scenario_inclusion_bounds (I : Inputs) (x : ℚ)
    (hx : min_inclusion I ≤ x) (hb : min_inclusion I ≤ I.box_5_scholarship) :
    min_inclusion I ≤ (calculate_scenario I x).inclusion
      ∧ (calculate_scenario I x).inclusion ≤ I.box_5_scholarship := by
  rw [scenario_inclusion, clampInc_eq_min]
  exact ⟨le_min hx hb, min_le_right _ _⟩

/-- **C1.**  For every run and candidate inclusion amount, the federal tax the
Evaluator computes equals the spec's progressive-bracket reference applied to
the (non-negative) federal taxable income `max 0 (new_agi − FED_STD_DEDUCTION)`:
the ordered bracket table `[(11925, 0.10), (48475, 0.12), (103350, 0.22),
(inf, 0.24)]` consumed band by band with `min(remaining, band_width) × rate`. -/
theorem C1_fed_tax_eq_progressive_reference (I : Inputs) (x : ℚ) :
    (calculate_scenario I x).fed_tax =
      specProgressiveTax
        (max 0 ((calculate_scenario I x).agi - FED_STD_DEDUCTION)) := by
  rw [scenario_fed_tax, scenario_agi, fedTaxLoop_eq_piece, specProgressiveTax_eq_piece]

/-- **C2.**  For non-negative inputs with `state_tax_rate ∈ [0, 1]` and a
non-negative candidate inclusion amount, every ScenarioResult satisfies the
data-model invariant: `0 ≤ inclusion ≤ scholarship_total`, `federal_tax ≥ 0`,
`state_tax ≥ 0`, `0 ≤ credit ≤ min 2000 (0.20 × expenses_to_claim)`, and
`expenses_to_claim ≥ 0`. -/
theorem C2_scenario_result_invariants (I : Inputs) (x : ℚ)
    (h1 : 0 ≤ I.box_1_tuition) (h2 : 0 ≤ I.box_5_scholarship)
    (h3 : 0 ≤ I.sch1_line_8r_current) (h4 : 0 ≤ I.form1040_line_11_agi)
    (h5 : 0 ≤ I.ncd400_line_14_taxable) (h6 : 0 ≤ I.nc_tax_rate)
    (h7 : I.nc_tax_rate ≤ 1) (hx : 0 ≤ x) :
    0 ≤ (calculate_scenario I x).inclusion
      ∧ (calculate_scenario I x).inclusion ≤ I.box_5_scholarship
      ∧ 0 ≤ (calculate_scenario I x).fed_tax
      ∧ 0 ≤ (calculate_scenario I x).nc_tax
      ∧ 0 ≤ (calculate_scenario I x).credit
      ∧ (calculate_scenario I x).credit
          ≤ min 2000 (0.20 * (calculate_scenario I x).expenses_to_claim)
      ∧ 0 ≤ (calculate_scenario I x).expenses_to_claim := by
  have hexp : 0 ≤ (calculate_scenario I x).expenses_to_claim := by
    rw [scenario_expenses]; exact le_max_left _ _
  refine ⟨?_, ?_, scenario_fed_tax_nonneg I x, ?_, ?_, ?_, hexp⟩
  · rw [scenario_inclusion, clampInc_eq_min]
    exact le_min hx h2
  · rw [scenario_inclusion, clampInc_eq_min]
    exact min_le_right _ _
  · rw [scenario_nc_tax]
    exact mul_nonneg (le_max_left _ _) h6
  · rw [scenario_credit]
    exact le_min (le_min (by norm_num) (mul_nonneg hexp (by norm_num)))
      (scenario_fed_tax_nonneg I x)
  · rw [scenario_credit]
    refine le_trans (min_le_left _ _) (le_of_eq ?_)
    rw [mul_comm]

/-- Witness for C2: the spec's end-to-end example run, candidate inclusion
5000. -/
theorem C2_scenario_result_invariants_witness :
    0 ≤ (calculate_scenario ⟨13552, 14235, 7900, 29639, 16889, 0.0425⟩ 5000).inclusion
      ∧ (calculate_scenario ⟨13552, 14235, 7900, 29639, 16889, 0.0425⟩ 5000).inclusion
          ≤ (⟨13552, 14235, 7900, 29639, 16889, 0.0425⟩ : Inputs).box_5_scholarship
      ∧ 0 ≤ (calculate_scenario ⟨13552, 14235, 7900, 29639, 16889, 0.0425⟩ 5000).fed_tax
      ∧ 0 ≤ (calculate_scenario ⟨13552, 14235, 7900, 29639, 16889, 0.0425⟩ 5000).nc_tax
      ∧ 0 ≤ (calculate_scenario ⟨13552, 14235, 7900, 29639, 16889, 0.0425⟩ 5000).credit
      ∧ (calculate_scenario ⟨13552, 14235, 7900, 29639, 16889, 0.0425⟩ 5000).credit
          ≤ min 2000
              (0.20 * (calculate_scenario ⟨13552, 14235, 7900, 29639, 16889, 0.0425⟩
                  5000).expenses_to_claim)
      ∧ 0 ≤ (calculate_scenario ⟨13552, 14235, 7900, 29639, 16889, 0.0425⟩
          5000).expenses_to_claim :=
  C2_scenario_result_invariants ⟨13552, 14235, 7900, 29639, 16889, 0.0425⟩ 5000
    (by norm_num) (by norm_num) (by norm_num) (by norm_num) (by norm_num)
    (by norm_num) (by norm_num) (by norm_num)

/-- **C4.**  For non-negative inputs with `current_inclusion ≥ min_inclusion`,
the returned best result's net position is at least the manual result's: the
coarse stage is seeded with the scenario at `safe_baseline_inclusion`
(= `current_inclusion` here) and both folds only ever replace the running best
with a scenario of net position at least as high. -/
theorem C4_best_at_least_manual (I : Inputs)
    (h1 : 0 ≤ I.box_1_tuition) (h2 : 0 ≤ I.box_5_scholarship)
    (h3 : 0 ≤ I.sch1_line_8r_current) (h4 : 0 ≤ I.form1040_line_11_agi)
    (h5 : 0 ≤ I.ncd400_line_14_taxable) (h6 : 0 ≤ I.nc_tax_rate)
    (hcur : min_inclusion I ≤ I.sch1_line_8r_current) :
    (optimize_scholarship I).1.net_position
      ≤ (optimize_scholarship I).2.net_position := by
  have hseed : safe_baseline_inclusion I = I.sch1_line_8r_current :=
    max_eq_left hcur
  have hcoarse : (calculate_scenario I (safe_baseline_inclusion I)).net_position
      ≤ (coarseBest I).net_position :=
    foldl_net_mono (coarseStep I) (coarseStep_net_le I) (coarse_steps I) _
  have hfine : (coarseBest I).net_position ≤ (fineBest I).net_position :=
    foldl_net_mono (fineStep I) (fineStep_net_le I) (fineWindow I) _
  calc (optimize_scholarship I).1.net_position
      = (calculate_scenario I (safe_baseline_inclusion I)).net_position := by
        rw [hseed]; rfl
    _ ≤ (coarseBest I).net_position := hcoarse
    _ ≤ (fineBest I).net_position := hfine
    _ = (optimize_scholarship I).2.net_position := rfl

/-- Witness for C4: the spec's end-to-end example run
(`current_inclusion = 7900 ≥ min_inclusion = 683`). -/
theorem C4_best_at_least_manual_witness :
    (optimize_scholarship ⟨13552, 14235, 7900, 29639, 16889, 0.0425⟩).1.net_position
      ≤ (optimize_scholarship ⟨13552, 14235, 7900, 29639, 16889, 0.0425⟩).2.net_position :=
  C4_best_at_least_manual ⟨13552, 14235, 7900, 29639, 16889, 0.0425⟩
    (by norm_num) (by norm_num) (by norm_num) (by norm_num) (by norm_num)
    (by norm_num) (by norm_num [min_inclusion])

/-- **C5.**  For every run with non-negative inputs, `manual_result` is the
Evaluator applied to the unmodified `current_inclusion` — not the
floor-clamped `safe_baseline_inclusion` — and no fault is raised: even when
`current_inclusion` lies strictly below the legal floor `min_inclusion`, the
manual scenario is computed at that below-floor value (its `inclusion` field
is exactly `current_inclusion`). -/
theorem C5_manual_result_unclamped (I : Inputs)
    (h1 : 0 ≤ I.box_1_tuition) (h2 : 0 ≤ I.box_5_scholarship)
    (h3 : 0 ≤ I.sch1_line_8r_current) (h4 : 0 ≤ I.form1040_line_11_agi)
    (h5 : 0 ≤ I.ncd400_line_14_taxable) (h6 : 0 ≤ I.nc_tax_rate) :
    (optimize_scholarship I).1 = calculate_scenario I I.sch1_line_8r_current
      ∧ (I.sch1_line_8r_current < min_inclusion I →
          (optimize_scholarship I).1.inclusion = I.sch1_line_8r_current) := by
  refine ⟨rfl, fun hlow => ?_⟩
  have hle : I.sch1_line_8r_current ≤ I.box_5_scholarship :=
    le_of_lt (lt_of_lt_of_le hlow (min_inclusion_le_box5 I h1 h2))
  show (calculate_scenario I I.sch1_line_8r_current).inclusion
      = I.sch1_line_8r_current
  rw [scenario_inclusion, clampInc_eq_min]
  exact min_eq_left hle

/-- Witness for C5: a run whose as-filed inclusion `0` is strictly below the
legal floor `min_inclusion = 1000`. -/
theorem C5_manual_result_unclamped_witness :
    (optimize_scholarship ⟨0, 1000, 0, 0, 0, 0⟩).1
        = calculate_scenario ⟨0, 1000, 0, 0, 0, 0⟩ 0
      ∧ ((⟨0, 1000, 0, 0, 0, 0⟩ : Inputs).sch1_line_8r_current
            < min_inclusion ⟨0, 1000, 0, 0, 0, 0⟩ →
          (optimize_scholarship ⟨0, 1000, 0, 0, 0, 0⟩).1.inclusion
            = (⟨0, 1000, 0, 0, 0, 0⟩ : Inputs).sch1_line_8r_current) :=
  C5_manual_result_unclamped ⟨0, 1000, 0, 0, 0, 0⟩
    (by norm_num) (by norm_num) (by norm_num) (by norm_num) (by norm_num)
    (by norm_num)

/-- **C9.**  For non-negative inputs with `current_inclusion ≤
scholarship_total`: when `state_taxable_income > 0`, the derived
`state_adjustment_factor` makes the baseline exactly consistent — the
Evaluator at `inclusion = current_inclusion` yields
`state_tax = state_taxable_income × state_tax_rate` — and when
`state_taxable_income = 0` the adjustment factor is zero. -/
theorem C9_state_adjustment_consistency (I : Inputs)
    (h1 : 0 ≤ I.box_1_tuition) (h2 : 0 ≤ I.box_5_scholarship)
    (h3 : 0 ≤ I.sch1_line_8r_current) (h4 : 0 ≤ I.form1040_line_11_agi)
    (h5 : 0 ≤ I.ncd400_line_14_taxable) (h6 : 0 ≤ I.nc_tax_rate)
    (hcur : I.sch1_line_8r_current ≤ I.box_5_scholarship) :
    (0 < I.ncd400_line_14_taxable →
        (calculate_scenario I I.sch1_line_8r_current).nc_tax
          = I.ncd400_line_14_taxable * I.nc_tax_rate)
      ∧ (I.ncd400_line_14_taxable = 0 → state_adjustment_factor I = 0) := by
  constructor
  · intro hpos
    rw [scenario_nc_tax, clampInc_eq_min, min_eq_left hcur]
    have hcalc : base_fed_income I + I.sch1_line_8r_current - NC_STD_DEDUCTION
        + state_adjustment_factor I = I.ncd400_line_14_taxable := by
      rw [state_adjustment_factor, if_pos hpos, base_fed_income]
      ring
    rw [hcalc, max_eq_right (le_of_lt hpos)]
  · intro h0
    rw [state_adjustment_factor, if_neg (by rw [h0]; exact lt_irrefl 0)]

/-- Witness for C9: the spec's end-to-end example run
(`state_taxable_income = 16889 > 0`, `current_inclusion = 7900 ≤ 14235`). -/
theorem C9_state_adjustment_consistency_witness :
    (0 < (⟨13552, 14235, 7900, 29639, 16889, 0.0425⟩ : Inputs).ncd400_line_14_taxable →
        (calculate_scenario ⟨13552, 14235, 7900, 29639, 16889, 0.0425⟩ 7900).nc_tax
          = (⟨13552, 14235, 7900, 29639, 16889, 0.0425⟩ : Inputs).ncd400_line_14_taxable
              * (⟨13552, 14235, 7900, 29639, 16889, 0.0425⟩ : Inputs).nc_tax_rate)
      ∧ ((⟨13552, 14235, 7900, 29639, 16889, 0.0425⟩ : Inputs).ncd400_line_14_taxable = 0 →
          state_adjustment_factor ⟨13552, 14235, 7900, 29639, 16889, 0.0425⟩ = 0) :=
  C9_state_adjustment_consistency ⟨13552, 14235, 7900, 29639, 16889, 0.0425⟩
    (by norm_num) (by norm_num) (by norm_num) (by norm_num) (by norm_num)
    (by norm_num) (by norm_num)

/-- **C10.**  When `state_taxable_income = 0` (no state filing) the Evaluator
still computes `state_tax = max 0 (new_agi − NC_STD_DEDUCTION) ×
state_tax_rate` for every candidate inclusion, so with a positive rate every
ScenarioResult carries a strictly positive state tax whenever its recomputed
AGI exceeds the state standard deduction. -/
theorem C10_zero_state_filing_still_taxed (I : Inputs)
    (h0 : I.ncd400_line_14_taxable = 0) :
    (∀ x : ℚ, (calculate_scenario I x).nc_tax
        = max 0 ((calculate_scenario I x).agi - NC_STD_DEDUCTION) * I.nc_tax_rate)
      ∧ (0 < I.nc_tax_rate → ∀ x : ℚ,
          NC_STD_DEDUCTION < (calculate_scenario I x).agi →
            0 < (calculate_scenario I x).nc_tax) := by
  have hadj : state_adjustment_factor I = 0 := by
    rw [state_adjustment_factor, if_neg (by rw [h0]; exact lt_irrefl 0)]
  have hfact : ∀ x : ℚ, (calculate_scenario I x).nc_tax
      = max 0 ((calculate_scenario I x).agi - NC_STD_DEDUCTION) * I.nc_tax_rate := by
    intro x
    rw [scenario_nc_tax, scenario_agi, hadj, add_zero]
  refine ⟨hfact, fun hrate x hagi => ?_⟩
  rw [hfact x]
  exact mul_pos (by rw [max_eq_right (by linarith)]; linarith) hrate

/-- Witness for C10: no state filing (`state_taxable_income = 0`), rate `1%`,
candidate inclusion `0`, recomputed AGI `20000 > 12750`. -/
theorem C10_zero_state_filing_still_taxed_witness :
    0 < (calculate_scenario ⟨0, 0, 0, 20000, 0, 0.01⟩ 0).nc_tax :=
  (C10_zero_state_filing_still_taxed ⟨0, 0, 0, 20000, 0, 0.01⟩ rfl).2
    (by norm_num) 0
    (by rw [scenario_agi];
        norm_num [base_fed_income, clampInc, NC_STD_DEDUCTION])

/-- **C7.**  For non-negative inputs with `state_tax_rate ∈ [0, 1]`, holding
the run fixed, each of federal tax, state tax and usable credit is
non-decreasing in the candidate inclusion amount on `[0, ∞)` — including
across the clamp at `scholarship_total`. -/
theorem C7_taxes_and_credit_monotone (I : Inputs)
    (h1 : 0 ≤ I.box_1_tuition) (h2 : 0 ≤ I.box_5_scholarship)
    (h3 : 0 ≤ I.sch1_line_8r_current) (h4 : 0 ≤ I.form1040_line_11_agi)
    (h5 : 0 ≤ I.ncd400_line_14_taxable) (h6 : 0 ≤ I.nc_tax_rate)
    (h7 : I.nc_tax_rate ≤ 1) (x y : ℚ) (hx : 0 ≤ x) (hxy : x ≤ y) :
    (calculate_scenario I x).fed_tax ≤ (calculate_scenario I y).fed_tax
      ∧ (calculate_scenario I x).nc_tax ≤ (calculate_scenario I y).nc_tax
      ∧ (calculate_scenario I x).credit ≤ (calculate_scenario I y).credit := by
  have hclamp : clampInc I x ≤ clampInc I y := clampInc_mono I hxy
  have hfed : (calculate_scenario I x).fed_tax ≤ (calculate_scenario I y).fed_tax := by
    rw [scenario_fed_tax, scenario_fed_tax, fedTaxLoop_eq_piece, fedTaxLoop_eq_piece]
    exact fedTaxPiece_mono (max_le_max le_rfl (by linarith))
  refine ⟨hfed, ?_, ?_⟩
  · rw [scenario_nc_tax, scenario_nc_tax]
    exact mul_le_mul_of_nonneg_right (max_le_max le_rfl (by linarith)) h6
  · have hexp : (calculate_scenario I x).expenses_to_claim
        ≤ (calculate_scenario I y).expenses_to_claim := by
      rw [scenario_expenses, scenario_expenses]
      have htf : max 0 (I.box_5_scholarship - clampInc I y)
          ≤ max 0 (I.box_5_scholarship - clampInc I x) :=
        max_le_max le_rfl (by linarith)
      exact max_le_max le_rfl (by linarith)
    rw [scenario_credit, scenario_credit]
    exact min_le_min
      (min_le_min le_rfl (mul_le_mul_of_nonneg_right hexp (by norm_num))) hfed

/-- Witness for C7: the end-to-end example run at inclusion amounts
`1000 ≤ 2000`. -/
theorem C7_taxes_and_credit_monotone_witness :
    (calculate_scenario ⟨13552, 14235, 7900, 29639, 16889, 0.0425⟩ 1000).fed_tax
        ≤ (calculate_scenario ⟨13552, 14235, 7900, 29639, 16889, 0.0425⟩ 2000).fed_tax
      ∧ (calculate_scenario ⟨13552, 14235, 7900, 29639, 16889, 0.0425⟩ 1000).nc_tax
        ≤ (calculate_scenario ⟨13552, 14235, 7900, 29639, 16889, 0.0425⟩ 2000).nc_tax
      ∧ (calculate_scenario ⟨13552, 14235, 7900, 29639, 16889, 0.0425⟩ 1000).credit
        ≤ (calculate_scenario ⟨13552, 14235, 7900, 29639, 16889, 0.0425⟩ 2000).credit :=
  C7_taxes_and_credit_monotone ⟨13552, 14235, 7900, 29639, 16889, 0.0425⟩
    (by norm_num) (by norm_num) (by norm_num) (by norm_num) (by norm_num)
    (by norm_num) (by norm_num) 1000 2000 (by norm_num) (by norm_num)

lemma min_inclusion_int (I : Inputs) (t1 t5 : ℤ)
    (ht1 : I.box_1_tuition = (t1 : ℚ)) (ht5 : I.box_5_scholarship = (t5 : ℚ)) :
    min_inclusion I = ((max 0 (t5 - t1) : ℤ) : ℚ) := by
  rw [min_inclusion, ht1, ht5]
  push_cast
  rfl

/-- With whole-currency tuition and scholarship, every inclusion amount the
two-stage search evaluates is at least the legal floor. -/
lemma searchCandidates_ge_floor (I : Inputs) (t1 t5 : ℤ)
    (ht1 : I.box_1_tuition = (t1 : ℚ)) (ht5 : I.box_5_scholarship = (t5 : ℚ))
    (h1 : 0 ≤ I.box_1_tuition) (h2 : 0 ≤ I.box_5_scholarship) :
    ∀ c ∈ searchCandidates I, min_inclusion I ≤ c := by
  have hmZ : pyInt (min_inclusion I) = max 0 (t5 - t1) := by
    rw [min_inclusion_int I t1 t5 ht1 ht5]
    exact pyInt_intCast _
  have hmin : min_inclusion I = ((max 0 (t5 - t1) : ℤ) : ℚ) :=
    min_inclusion_int I t1 t5 ht1 ht5
  intro c hc
  simp only [searchCandidates, List.mem_cons, List.mem_append, List.mem_map,
    List.mem_singleton, coarse_steps] at hc
  rcases hc with rfl | (⟨k, hk, rfl⟩ | (rfl | h)) | ⟨k, hk, rfl⟩
  · exact le_max_right _ _
  · rcases pyRange_mem hk with ⟨i, rfl⟩
    rw [hmZ, hmin]
    have : max 0 (t5 - t1) ≤ max 0 (t5 - t1) + 100 * (i : ℤ) := by omega
    exact_mod_cast this
  · exact min_inclusion_le_box5 I h1 h2
  · exact absurd h (List.not_mem_nil _)
  · have hk1 := (pyRange_one_mem _ _ _).mp hk
    have hstart : pyInt (min_inclusion I) ≤ k :=
      le_trans (le_max_left _ _) hk1.1
    rw [hmZ] at hstart
    rw [hmin]
    exact_mod_cast hstart

/-- **C3 (amended: `box_1_tuition` and `box_5_scholarship` whole-currency
integers).**  The best result's inclusion lies in
`[min_inclusion, scholarship_total]`, and no scenario evaluated anywhere in
the two-stage search has inclusion below `min_inclusion`. -/
theorem C3_search_respects_floor (I : Inputs) (t1 t5 : ℤ)
    (ht1 : I.box_1_tuition = (t1 : ℚ)) (ht5 : I.box_5_scholarship = (t5 : ℚ))
    (h1 : 0 ≤ I.box_1_tuition) (h2 : 0 ≤ I.box_5_scholarship)
    (h3 : 0 ≤ I.sch1_line_8r_current) (h4 : 0 ≤ I.form1040_line_11_agi)
    (h5 : 0 ≤ I.ncd400_line_14_taxable) (h6 : 0 ≤ I.nc_tax_rate) :
    (min_inclusion I ≤ (optimize_scholarship I).2.inclusion
        ∧ (optimize_scholarship I).2.inclusion ≤ I.box_5_scholarship)
      ∧ ∀ c ∈ searchCandidates I,
          min_inclusion I ≤ (calculate_scenario I c).inclusion := by
  have hmb : min_inclusion I ≤ I.box_5_scholarship := min_inclusion_le_box5 I h1 h2
  have hcand : ∀ c ∈ searchCandidates I, min_inclusion I ≤ c :=
    searchCandidates_ge_floor I t1 t5 ht1 ht5 h1 h2
  have hP : ∀ c ∈ searchCandidates I,
      min_inclusion I ≤ (calculate_scenario I c).inclusion
        ∧ (calculate_scenario I c).inclusion ≤ I.box_5_scholarship :=
    fun c hc => scenario_inclusion_bounds I c (hcand c hc) hmb
  refine ⟨?_, fun c hc => (hP c hc).1⟩
  have hseed : min_inclusion I
        ≤ (calculate_scenario I (safe_baseline_inclusion I)).inclusion
      ∧ (calculate_scenario I (safe_baseline_inclusion I)).inclusion
        ≤ I.box_5_scholarship :=
    hP _ (by simp [searchCandidates])
  have hcoarse : min_inclusion I ≤ (coarseBest I).inclusion
      ∧ (coarseBest I).inclusion ≤ I.box_5_scholarship := by
    refine foldl_preserve
      (fun r => min_inclusion I ≤ r.inclusion ∧ r.inclusion ≤ I.box_5_scholarship)
      (coarseStep I) (calculate_scenario I) (coarseStep_cases I)
      (coarse_steps I) _ hseed ?_
    intro c hc
    exact hP c (by simp [searchCandidates, hc])
  have hfine : min_inclusion I ≤ (fineBest I).inclusion
      ∧ (fineBest I).inclusion ≤ I.box_5_scholarship := by
    refine foldl_preserve
      (fun r => min_inclusion I ≤ r.inclusion ∧ r.inclusion ≤ I.box_5_scholarship)
      (fineStep I) (fun k => calculate_scenario I (k : ℚ)) (fineStep_cases I)
      (fineWindow I) _ hcoarse ?_
    intro k hk
    exact hP _ (by simp only [searchCandidates, List.mem_cons, List.mem_append,
      List.mem_map]; exact Or.inr (Or.inr ⟨k, hk, rfl⟩))
  exact hfine

/-- Witness for the amended C3: the end-to-end example run (integer tuition
`13552` and scholarship `14235`). -/
theorem C3_search_respects_floor_witness :
    (min_inclusion ⟨13552, 14235, 7900, 29639, 16889, 0.0425⟩
          ≤ (optimize_scholarship ⟨13552, 14235, 7900, 29639, 16889, 0.0425⟩).2.inclusion
        ∧ (optimize_scholarship ⟨13552, 14235, 7900, 29639, 16889, 0.0425⟩).2.inclusion
          ≤ (⟨13552, 14235, 7900, 29639, 16889, 0.0425⟩ : Inputs).box_5_scholarship)
      ∧ ∀ c ∈ searchCandidates ⟨13552, 14235, 7900, 29639, 16889, 0.0425⟩,
          min_inclusion ⟨13552, 14235, 7900, 29639, 16889, 0.0425⟩
            ≤ (calculate_scenario ⟨13552, 14235, 7900, 29639, 16889, 0.0425⟩ c).inclusion :=
  C3_search_respects_floor ⟨13552, 14235, 7900, 29639, 16889, 0.0425⟩ 13552 14235
    (by norm_num) (by norm_num) (by norm_num) (by norm_num) (by norm_num)
    (by norm_num) (by norm_num) (by norm_num)

/-- Counterexample to C3 as stated: with the non-negative (but fractional)
scholarship `100.5` and zero tuition, `min_inclusion = 100.5`, yet the
returned best result has inclusion `100 < min_inclusion` — the coarse grid
starts at `int(min_inclusion) = 100` and the fine stage evaluates `100`. -/
theorem C3_floor_counterexample :
    (optimize_scholarship ⟨0, 201/2, 0, 20000, 0, 0⟩).2.inclusion
      < min_inclusion ⟨0, 201/2, 0, 20000, 0, 0⟩ := by
  norm_num [optimize_scholarship, fineBest, fineWindow, start_fine, end_fine,
    coarseBest, coarse_steps, safe_baseline_inclusion, min_inclusion, pyInt,
    pyRange, coarseStep, fineStep, calculate_scenario, base_fed_income,
    state_adjustment_factor, fedTaxLoop, FED_BRACKETS, FED_STD_DEDUCTION,
    NC_STD_DEDUCTION, List.range_succ]

/-- **C8 (amended: coarse bound is `⌈scholarship_total/100⌉ + 1`).**  The
coarse candidate list has at most `⌈scholarship_total/100⌉ + 1` elements and
the fine window contains at most `201` integers. -/
theorem C8_iteration_bounds (I : Inputs)
    (h1 : 0 ≤ I.box_1_tuition) (h2 : 0 ≤ I.box_5_scholarship)
    (h3 : 0 ≤ I.sch1_line_8r_current) (h4 : 0 ≤ I.form1040_line_11_agi)
    (h5 : 0 ≤ I.ncd400_line_14_taxable) (h6 : 0 ≤ I.nc_tax_rate) :
    ((coarse_steps I).length : ℤ) ≤ ⌈I.box_5_scholarship / 100⌉ + 1
      ∧ (fineWindow I).length ≤ 201 := by
  constructor
  · have hlen : (coarse_steps I).length =
        (pyRange (pyInt (min_inclusion I)) (pyInt I.box_5_scholarship) 100).length
          + 1 := by
      simp [coarse_steps]
    rw [hlen, pyRange_length]
    have ha : 0 ≤ pyInt (min_inclusion I) := pyInt_nonneg (min_inclusion_nonneg I)
    have hc0 : 0 ≤ ⌈I.box_5_scholarship / 100⌉ :=
      Int.ceil_nonneg (div_nonneg h2 (by norm_num))
    have hbc : pyInt I.box_5_scholarship ≤ 100 * ⌈I.box_5_scholarship / 100⌉ := by
      have hq : ((pyInt I.box_5_scholarship : ℤ) : ℚ)
          ≤ 100 * ((⌈I.box_5_scholarship / 100⌉ : ℤ) : ℚ) := by
        have hbq : ((pyInt I.box_5_scholarship : ℤ) : ℚ) ≤ I.box_5_scholarship :=
          pyInt_cast_le h2
        have hceil : I.box_5_scholarship / 100
            ≤ ((⌈I.box_5_scholarship / 100⌉ : ℤ) : ℚ) := Int.le_ceil _
        linarith
      exact_mod_cast hq
    split_ifs with hab
    · push_cast
      omega
    · push_cast
      omega
  · have hs : pyInt (coarseBest I).inclusion - 100 ≤ start_fine I :=
      le_max_right _ _
    have he : end_fine I ≤ pyInt (coarseBest I).inclusion + 100 :=
      min_le_right _ _
    rw [fineWindow, pyRange_length]
    simp only [Int.toNat_one, Nat.div_one]
    split_ifs with hab
    · omega
    · omega

/-- Witness for the amended C8: the end-to-end example run. -/
theorem C8_iteration_bounds_witness :
    ((coarse_steps ⟨13552, 14235, 7900, 29639, 16889, 0.0425⟩).length : ℤ)
        ≤ ⌈(⟨13552, 14235, 7900, 29639, 16889, 0.0425⟩ : Inputs).box_5_scholarship / 100⌉ + 1
      ∧ (fineWindow ⟨13552, 14235, 7900, 29639, 16889, 0.0425⟩).length ≤ 201 :=
  C8_iteration_bounds ⟨13552, 14235, 7900, 29639, 16889, 0.0425⟩
    (by norm_num) (by norm_num) (by norm_num) (by norm_num) (by norm_num)
    (by norm_num)

/-- Counterexample to C8 as stated: with tuition and scholarship both `150`,
the coarse candidate list is `[0, 100, 150]` — three Evaluator iterations —
but `scholarship_total/100 + 1 = 2.5`. -/
theorem C8_coarse_bound_counterexample :
    ¬ (((coarse_steps ⟨150, 150, 0, 0, 0, 0⟩).length : ℚ)
        ≤ (⟨150, 150, 0, 0, 0, 0⟩ : Inputs).box_5_scholarship / 100 + 1) := by
  norm_num [coarse_steps, pyRange, pyInt, min_inclusion, List.range_succ,
    show Int.toNat 149 = 149 from rfl, show Int.toNat 100 = 100 from rfl]

/-- **C6.**  If two distinct integers `i < j` in the fine-stage window both
achieve the maximal net position among everything the fold sees (all window
candidates and the coarse best), and no window candidate above `j` ties that
maximum, then the Optimizer returns the scenario at the larger amount `j`:
the fine stage scans the window in ascending order and replaces the running
best on non-strict improvement. -/
theorem C6_fine_stage_tie_prefers_larger (I : Inputs) (i j : ℤ)
    (h1 : 0 ≤ I.box_1_tuition) (h2 : 0 ≤ I.box_5_scholarship)
    (h3 : 0 ≤ I.sch1_line_8r_current) (h4 : 0 ≤ I.form1040_line_11_agi)
    (h5 : 0 ≤ I.ncd400_line_14_taxable) (h6 : 0 ≤ I.nc_tax_rate)
    (hij : i < j) (hi : i ∈ fineWindow I) (hj : j ∈ fineWindow I)
    (heq : (calculate_scenario I (i : ℚ)).net_position
      = (calculate_scenario I (j : ℚ)).net_position)
    (hmaxW : ∀ k ∈ fineWindow I, (calculate_scenario I (k : ℚ)).net_position
      ≤ (calculate_scenario I (j : ℚ)).net_position)
    (hmaxC : (coarseBest I).net_position
      ≤ (calculate_scenario I (j : ℚ)).net_position)
    (hlast : ∀ k ∈ fineWindow I, j < k →
      (calculate_scenario I (k : ℚ)).net_position
        < (calculate_scenario I (j : ℚ)).net_position) :
    (optimize_scholarship I).2 = calculate_scenario I (j : ℚ)
      ∧ (optimize_scholarship I).2.inclusion = (j : ℚ) := by
  rw [fineWindow] at hj
  have hjm := (pyRange_one_mem _ _ _).mp hj
  have hsplit : fineWindow I
      = pyRange (start_fine I) j 1 ++ j :: pyRange (j + 1) (end_fine I + 1) 1 := by
    rw [fineWindow]
    exact pyRange_one_split hjm.1 hjm.2
  have hbest : fineBest I = calculate_scenario I (j : ℚ) := by
    rw [fineBest, hsplit]
    apply fineFold_last_argmax
    · exact hmaxC
    · intro k hk
      have hkm := (pyRange_one_mem _ _ _).mp hk
      have hkW : k ∈ fineWindow I := by
        rw [fineWindow]
        exact (pyRange_one_mem _ _ _).mpr ⟨hkm.1, by omega⟩
      exact hmaxW k hkW
    · intro k hk
      have hkm := (pyRange_one_mem _ _ _).mp hk
      have hkW : k ∈ fineWindow I := by
        rw [fineWindow]
        exact (pyRange_one_mem _ _ _).mpr ⟨by omega, hkm.2⟩
      exact hlast k hkW (by omega)
  refine ⟨hbest, ?_⟩
  show (fineBest I).inclusion = (j : ℚ)
  rw [hbest, scenario_inclusion, clampInc_eq_min]
  apply min_eq_left
  have hjb : j ≤ pyInt I.box_5_scholarship :=
    le_trans (by omega : j ≤ end_fine I) (min_le_left _ _)
  calc (j : ℚ) ≤ ((pyInt I.box_5_scholarship : ℤ) : ℚ) := by exact_mod_cast hjb
    _ ≤ I.box_5_scholarship := pyInt_cast_le h2

/-- Witness for C6: tuition `10`, scholarship `3`, zero state rate — every
candidate nets `0`, the fine window is `[0, 1, 2, 3]`, the adjacent amounts
`2` and `3` tie, and the Optimizer returns the larger amount `3`. -/
theorem C6_fine_stage_tie_prefers_larger_witness :
    (optimize_scholarship ⟨10, 3, 0, 0, 0, 0⟩).2
        = calculate_scenario ⟨10, 3, 0, 0, 0, 0⟩ ((3 : ℤ) : ℚ)
      ∧ (optimize_scholarship ⟨10, 3, 0, 0, 0, 0⟩).2.inclusion = ((3 : ℤ) : ℚ) := by
  have hw : fineWindow ⟨10, 3, 0, 0, 0, 0⟩ = [0, 1, 2, 3] := by
    norm_num [fineWindow, start_fine, end_fine, coarseBest, coarse_steps,
      safe_baseline_inclusion, min_inclusion, pyInt, pyRange, coarseStep,
      calculate_scenario, base_fed_income, state_adjustment_factor, fedTaxLoop,
      FED_BRACKETS, FED_STD_DEDUCTION, NC_STD_DEDUCTION, List.range_succ,
      show Int.toNat 2 = 2 from rfl, show Int.toNat 100 = 100 from rfl,
      show Int.toNat 3 = 3 from rfl]
  refine C6_fine_stage_tie_prefers_larger ⟨10, 3, 0, 0, 0, 0⟩ 2 3 (by norm_num)
    (by norm_num) (by norm_num) (by norm_num) (by norm_num) (by norm_num)
    (by norm_num) ?_ ?_ ?_ ?_ ?_ ?_
  · rw [hw]; simp
  · rw [hw]; simp
  · norm_num [calculate_scenario, base_fed_income, state_adjustment_factor,
      fedTaxLoop, FED_BRACKETS, FED_STD_DEDUCTION, NC_STD_DEDUCTION]
  · rw [hw]
    intro k hk
    fin_cases hk <;>
      norm_num [calculate_scenario, base_fed_income, state_adjustment_factor,
        fedTaxLoop, FED_BRACKETS, FED_STD_DEDUCTION, NC_STD_DEDUCTION]
  · norm_num [coarseBest, coarse_steps, safe_baseline_inclusion, min_inclusion,
      pyInt, pyRange, coarseStep, calculate_scenario, base_fed_income,
      state_adjustment_factor, fedTaxLoop, FED_BRACKETS, FED_STD_DEDUCTION,
      NC_STD_DEDUCTION, List.range_succ,
      show Int.toNat 2 = 2 from rfl, show Int.toNat 100 = 100 from rfl]
  · rw [hw]
    intro k hk hgt
    fin_cases hk <;> exact absurd hgt (by omega)

end LLCOpt
